import Mathlib

/-!
# Verification of `gribmanager/grib_manager.py`

Shallow embedding of the handle-lifecycle wrappers, index lookup, grid-geometry
extraction and interpolation of `grib_manager.py`.  The decoding library
(`eccodes`) is modelled as an abstract environment.  Numeric values are `ℚ`
(exact rationals standing for the Python floats), key values are a small
Python-value type with the truthiness the code relies on.
-/

namespace GribM

/-- A Python value as far as the code's truthiness tests and key lookups
are concerned.  `pyNone` is Python's `None` (also the `AbstractDictionary.get`
default for an absent key). -/
inductive PyVal
  | pyNone
  | pyStr (s : String)
  | pyInt (n : Int)
  deriving DecidableEq, Repr

/-- Python truthiness of a `PyVal`: `None`, `''` and `0` are falsy. -/
def PyVal.truthy : PyVal → Bool
  | .pyNone => false
  | .pyStr s => s ≠ ""
  | .pyInt n => n ≠ 0

/-- Abstract view of one decoded GRIB message's key space, as exposed by the
decoding library (`ecc.codes_is_defined`, `codes_is_missing`, `codes_get_size`,
`codes_get`, `codes_get_array`). -/
structure MsgKeys where
  isDefined : String → Bool
  isMissing : String → Bool
  size : String → Nat
  getScalar : String → PyVal
  getArray : String → List PyVal

/-- Modelled from the spec: `utils.AbstractDictionary.get` (module `utils` is
not under `src/`) — returns the key's value when the key is defined in the
message, else the supplied default (the code calls it with default `None`
except one call with default `0`). -/
def MsgKeys.get (m : MsgKeys) (k : String) (dflt : PyVal := .pyNone) : PyVal :=
  if m.isDefined k then m.getScalar k else dflt

/-- `GribMessage.get_metadata`'s inner helper `mget(*keys)`:
`v = None; for key in keys: v = self.get(key); if v: break; return v`.
Note the loop stops at the first *truthy* value, and for the last key the
value is kept whether or not it is truthy. -/
def mget (m : MsgKeys) : List String → PyVal
  | [] => .pyNone
  | [k] => m.get k
  | k :: k' :: rest => if (m.get k).truthy then m.get k else mget m (k' :: rest)

/-- `grib_keys.CLASS` (module `grib_keys` is not under `src/`; the Mars key
name, its exact spelling is irrelevant to the claims). -/
def gkCLASS : String := "marsClass"

/-- `grib_keys.STREAM`. -/
def gkSTREAM : String := "marsStream"

/-- `grib_keys.TYPE`. -/
def gkTYPE : String := "marsType"

/-- The classification part of `GribMessage.get_metadata`:
`md['class'] = mget(gk.CLASS, 'class')` and likewise for stream and type. -/
def getMetadataClassification (m : MsgKeys) : PyVal × PyVal × PyVal :=
  (mget m [gkCLASS, "class"], mget m [gkSTREAM, "stream"], mget m [gkTYPE, "type"])

/-- The behaviour claimed by the spec for a probed metadata field: the value of
the first key in the candidate list that is *defined* in the message.
Follows the claim's wording, for comparison with `mget`. -/
def specFirstDefinedValue (m : MsgKeys) : List String → PyVal
  | [] => .pyNone
  | k :: rest => if m.isDefined k then m.get k else specFirstDefinedValue m rest

/-- A Python value a message item access can return: scalar or array
(`codes_get` vs `codes_get_array`). -/
inductive ItemVal
  | scalar (v : PyVal)
  | array (vs : List PyVal)
  deriving DecidableEq, Repr

/-- The errors the embedded operations can raise. -/
inductive PyErr
  | keyError (msg : String)
  | valueError (msg : String)
  deriving DecidableEq, Repr

/-- `GribMessage.__contains__`: `True` iff `ecc.codes_is_defined(id, key)`. -/
def msgContains (m : MsgKeys) (k : String) : Bool :=
  m.isDefined k

/-- `GribMessage.__getitem__` on a live message: raises `KeyError` when the key
is not contained; logs a warning (returned as the list of warned keys) when the
key is flagged MISSING; returns the array of values when the key's size
exceeds 1, else the scalar. -/
def msgGetItem (m : MsgKeys) (k : String) : List String × Except PyErr ItemVal :=
  if ¬ msgContains m k then ([], .error (.keyError k))
  else if m.size k > 1 then
    ((if m.isMissing k then [k] else []), .ok (.array (m.getArray k)))
  else ((if m.isMissing k then [k] else []), .ok (.scalar (m.getScalar k)))

/-- The behaviour of a probed metadata field characterised independently of
the loop: the value of the first candidate key whose value is truthy; when no
candidate's value is truthy, the last candidate's value (`None` when the list
is empty). -/
def firstTruthyProbe (m : MsgKeys) (keys : List String) : PyVal :=
  match keys.find? (fun k => (m.get k).truthy) with
  | some k => m.get k
  | none => ((keys.getLast?).map (fun k => m.get k)).getD .pyNone

/-! ## Handle lifecycle (GribAbstractItem subclasses)

The module-level diagnostic counters and the set of native handles passed to
the release routines of `eccodes` are gathered in a global state `GState`;
each wrapper carries its `_id` (or the file's closed flag) explicitly. -/

/-- The module-level diagnostic counters `_grib_messages_released`,
`_grib_files_closed`, `_grib_indices_released`, together with the native ids
actually handed to `ecc.codes_release` / `ecc.codes_index_release`. -/
structure GState where
  releasedMessageIds : List Nat
  messagesReleased : Nat
  filesClosed : Nat
  releasedIndexIds : List Nat
  indicesReleased : Nat
  deriving DecidableEq, Repr

/-- `GribMessage`: the `_id` field (`none` once released) and the
`headers_only` constructor argument (which decides whether the fast
nearest-point routine is installed). -/
structure GribMessageH where
  id : Option Nat
  headersOnly : Bool
  deriving DecidableEq, Repr

/-- `GribMessage.get_id`: raises `ValueError` when the message was released. -/
def gmGetId (m : GribMessageH) : Except PyErr Nat :=
  match m.id with
  | some i => .ok i
  | none => .error (.valueError "GRIB message already released")

/-- `GribMessage.close`: when `_id` is not `None`, hand the id to
`ecc.codes_release`, set `_id = None` and bump `_grib_messages_released`;
otherwise do nothing. -/
def gmClose (s : GState) (m : GribMessageH) : GState × GribMessageH :=
  match m.id with
  | some i =>
      ({ s with releasedMessageIds := s.releasedMessageIds ++ [i],
                messagesReleased := s.messagesReleased + 1 },
       { m with id := none })
  | none => (s, m)

/-- Item access through the wrapper: `__getitem__` first calls `get_id()`, so
on a released message it raises the use-after-release `ValueError` instead of
performing the key lookup. -/
def msgGetItemLive (mh : GribMessageH) (m : MsgKeys) (k : String) :
    List String × Except PyErr ItemVal :=
  match mh.id with
  | none => ([], .error (.valueError "GRIB message already released"))
  | some _ => msgGetItem m k

/-- `GribFile` after a successful construction: the byte stream's closed
flag (`self._file.closed`). -/
structure GribFileH where
  fileClosed : Bool
  deriving DecidableEq, Repr

/-- `GribFile.get_file`: raises `ValueError` when the stream is closed. -/
def gfGetFile (f : GribFileH) : Except PyErr Unit :=
  if f.fileClosed then .error (.valueError "GRIB file already closed") else .ok ()

/-- `GribFile.close`: closes the stream and bumps `_grib_files_closed` only
when the stream is still open. -/
def gfClose (s : GState) (f : GribFileH) : GState × GribFileH :=
  if ¬ f.fileClosed then
    ({ s with filesClosed := s.filesClosed + 1 }, { fileClosed := true })
  else (s, f)

/-- `GribFileIndexedBy`'s native index handle (`_id`, `none` once released). -/
structure GribIndexH where
  id : Option Nat
  deriving DecidableEq, Repr

/-- `GribFileIndexedBy.get_id`: raises `ValueError` when the index was
released. -/
def giGetId (x : GribIndexH) : Except PyErr Nat :=
  match x.id with
  | some i => .ok i
  | none => .error (.valueError "GRIB index already released")

/-- `GribFileIndexedBy.close`: when `_id` is not `None`, hand the id to
`ecc.codes_index_release`, set `_id = None` and bump
`_grib_indices_released`. -/
def giClose (s : GState) (x : GribIndexH) : GState × GribIndexH :=
  match x.id with
  | some i =>
      ({ s with releasedIndexIds := s.releasedIndexIds ++ [i],
                indicesReleased := s.indicesReleased + 1 },
       { id := none })
  | none => (s, x)

/-! ## Index lookup (`GribFileIndexedBy.__getitem__`) -/

/-- One reply of `ecc.codes_new_from_index` inside
`_GribMessagesFromIndexGenerator.__next__`: a fresh message id, the `None`
that ends the iteration, or a raised exception. -/
inductive DecodeStep
  | msg (id : Nat)
  | stop
  | err
  deriving DecidableEq, Repr

/-- The `for msg in _GribMessagesFromIndexGenerator(...)` collection loop of
`__getitem__`: append wrappers (each constructed live, `headers_only` left at
its default `False`) until the generator stops or raises; the boolean records
whether an exception escaped the loop. -/
def drainIndex : List DecodeStep → List GribMessageH → List GribMessageH × Bool
  | [], acc => (acc, false)
  | .msg i :: rest, acc => drainIndex rest (acc ++ [{ id := some i, headersOnly := false }])
  | .stop :: _, acc => (acc, false)
  | .err :: _, acc => (acc, true)

/-- The `for msg in value: msg.close()` cleanup loop of the `except` branch. -/
def closeAllMessages (s : GState) : List GribMessageH → GState
  | [] => s
  | m :: rest => closeAllMessages (gmClose s m).1 rest

/-- Outcome of `GribFileIndexedBy.__getitem__`. -/
inductive LookupOutcome
  | arityError
  | decodeError
  | emptyKeyError
  | ok (msgs : List GribMessageH)
  deriving DecidableEq, Repr

/-- `GribFileIndexedBy.__getitem__`: check the arity of the supplied index
tuple against the key tuple, select the values on the native index, drain all
matching messages; when a decode raises, close every collected message and
re-raise; raise `KeyError` when no message matched. -/
def indexedGetItem (s : GState) (keys idx : List String) (strm : List DecodeStep) :
    GState × LookupOutcome :=
  if idx.length ≠ keys.length then (s, .arityError)
  else if (drainIndex strm []).2 then (closeAllMessages s (drainIndex strm []).1, .decodeError)
  else if (drainIndex strm []).1.length = 0 then (s, .emptyKeyError)
  else (s, .ok (drainIndex strm []).1)

/-- Outcome of `GribFileUniquelyIndexedBy.__getitem__`. -/
inductive UniqueOutcome
  | arityError
  | decodeError
  | emptyKeyError
  | ambiguousError
  | ok (m : GribMessageH)
  deriving DecidableEq, Repr

/-- `GribFileUniquelyIndexedBy.__getitem__`: `value = super().__getitem__(idx)`;
raise `KeyError` when more than one message matched, else return `value[0]`. -/
def uniquelyIndexedGetItem (s : GState) (keys idx : List String)
    (strm : List DecodeStep) : GState × UniqueOutcome :=
  match indexedGetItem s keys idx strm with
  | (s', .arityError) => (s', .arityError)
  | (s', .decodeError) => (s', .decodeError)
  | (s', .emptyKeyError) => (s', .emptyKeyError)
  | (s', .ok msgs) =>
      if msgs.length > 1 then (s', .ambiguousError)
      else (s', .ok (msgs.headD { id := none, headersOnly := false }))

/-! ## `open_grib` -/

/-- The wrapper `open_grib` returns, with the constructor arguments it was
given.  `GribFileIndexedBy.__init__` takes no `headers_only` argument, so the
indexed variants carry none. -/
inductive GribWrapperSpec
  | file (filename : String) (headersOnly cache : Bool)
  | indexed (filename : String) (keys : List String) (cache : Bool)
  | uniquelyIndexed (filename : String) (keys : List String) (cache : Bool)
  deriving DecidableEq, Repr

/-- `open_grib(filename, index_keys, unique_indexing, headers_only, cache)`
(the `index_keys` argument already normalised to a list, as
`ensure_tuple` does for a single key). -/
def openGrib (filename : String) (indexKeys : Option (List String))
    (uniqueIndexing headersOnly cache : Bool) : GribWrapperSpec :=
  match indexKeys with
  | none => .file filename headersOnly cache
  | some ks =>
      if ¬ uniqueIndexing then .indexed filename ks cache
      else .uniquelyIndexed filename ks cache

/-- `_GribMessagesFromIndexGenerator.__next__` constructing a wrapper for a
fresh id: `GribMessage(message_id, self._grib_file_indexed)` leaves
`headers_only` at its default `False`. -/
def messageFromIndexGenerator (i : Nat) : GribMessageH :=
  { id := some i, headersOnly := false }

/-! ## Regular-grid geometry (`GribMessage._get_regular_grid_info`) -/

/-- Python's float `%` with positive divisor `360.`: result in `[0, 360)`. -/
def fmod360 (x : ℚ) : ℚ := x - 360 * ⌊x / 360⌋

/-- `np.isclose(a, b, atol=1e-4)` with numpy's default `rtol=1e-5`:
`|a - b| ≤ atol + rtol * |b|`. -/
def npIsClose (a b : ℚ) : Bool := |a - b| ≤ 1/10000 + (1/100000) * |b|

/-- Shortest angular distance on the 360° circle between `x` and `y`. -/
def circDist (x y : ℚ) : ℚ := min (fmod360 (x - y)) (360 - fmod360 (x - y))

/-- `grib_keys.PACKING_TYPE_GRID_SIMPLE`. -/
def packingTypeGridSimple : String := "grid_simple"

/-- `grib_keys.GRID_TYPE_REGULAR_LL`. -/
def gridTypeRegularLL : String := "regular_ll"

/-- The header fields `_get_regular_grid_info` reads from a message, with the
guard data (`gk.VALUES in self`, packing type, grid type). -/
structure GridMsg where
  hasValues : Bool
  packingType : Option String
  gridType : Option String
  lat0 : ℚ
  lon0 : ℚ
  lat1 : ℚ
  lon1 : ℚ
  deltaLat : ℚ
  deltaLatPositive : Bool
  deltaLon : ℚ
  deltaLonNegative : Bool
  latMinorLonMajor : Bool
  nLat : Nat
  nLon : Nat
  deriving DecidableEq, Repr

/-- The tuple `_get_regular_grid_info` returns on success. -/
structure GridDescriptor where
  lat0 : ℚ
  lat1 : ℚ
  dLat : ℚ
  nLat : Nat
  lon0 : ℚ
  lon1 : ℚ
  dLon : ℚ
  nLon : Nat
  latMajor : Bool
  deriving DecidableEq, Repr

/-- Result of `_get_regular_grid_info`: `None`, a raised `ValueError`, or the
grid tuple. -/
inductive GridInfoResult
  | notRegular
  | gridError (msg : String)
  | ok (d : GridDescriptor)
  deriving DecidableEq, Repr

/-- `true` exactly on the `ValueError` outcome. -/
def GridInfoResult.isGridError : GridInfoResult → Bool
  | .gridError _ => true
  | _ => false

/-- The signed latitude spacing:
`abs(ΔLAT) * (1 if iScansPositively else -1)`. -/
def signedDLat (m : GridMsg) : ℚ :=
  |m.deltaLat| * (if m.deltaLatPositive then 1 else -1)

/-- The signed longitude spacing:
`abs(ΔLON) * (-1 if iScansNegatively else 1)`. -/
def signedDLon (m : GridMsg) : ℚ :=
  |m.deltaLon| * (if m.deltaLonNegative then -1 else 1)

/-- `GribMessage._get_regular_grid_info`: `None` unless the message has values,
simple packing and a regular lat/lon grid; `ValueError` when a grid size is
`≤ 1` or the first/last points disagree with spacing and counts (latitude
compared with `np.isclose(·, 0., atol=1e-4)`, longitude reduced mod 360 and
compared with `np.isclose(·, [0., 360.], atol=1e-4).any()`); else the grid
tuple. -/
def getRegularGridInfo (m : GridMsg) : GridInfoResult :=
  if ¬ (m.hasValues ∧ m.packingType = some packingTypeGridSimple
        ∧ m.gridType = some gridTypeRegularLL) then
    .notRegular
  else
    let dLat := signedDLat m
    let dLon := signedDLon m
    let latMajor := ! m.latMinorLonMajor
    if m.nLat ≤ 1 then .gridError "size of latitude grid must be >= 2"
    else if m.nLon ≤ 1 then .gridError "size of longitude grid must be >= 2"
    else if ¬ npIsClose (m.lat0 + ((m.nLat : ℚ) - 1) * dLat - m.lat1) 0 then
      .gridError "latitude grid spacing, size and first and last point are not consistent"
    else if ¬ (npIsClose (fmod360 (m.lon0 + ((m.nLon : ℚ) - 1) * dLon - m.lon1)) 0
               ∨ npIsClose (fmod360 (m.lon0 + ((m.nLon : ℚ) - 1) * dLon - m.lon1)) 360) then
      .gridError "longitude grid spacing, size and first and last point are not consistent"
    else
      .ok { lat0 := m.lat0, lat1 := m.lat1, dLat := dLat, nLat := m.nLat,
            lon0 := m.lon0, lon1 := m.lon1, dLon := dLon, nLon := m.nLon,
            latMajor := latMajor }

/-- C3's raise condition as the code actually implements it, in explicit
arithmetic: a grid size below 2, a latitude mismatch beyond `1e-4`, or a
longitude mismatch (reduced into `[0, 360)`) that exceeds `1e-4` on the `0`
side and `1e-4 + 360 * 1e-5` on the `360` side (the `rtol` term of
`np.isclose` against `360.`). -/
def gridRaiseCondAmended (m : GridMsg) : Prop :=
  m.nLat ≤ 1 ∨ m.nLon ≤ 1
  ∨ 1/10000 < |m.lat0 + ((m.nLat : ℚ) - 1) * signedDLat m - m.lat1|
  ∨ (1/10000 < fmod360 (m.lon0 + ((m.nLon : ℚ) - 1) * signedDLon m - m.lon1)
     ∧ fmod360 (m.lon0 + ((m.nLon : ℚ) - 1) * signedDLon m - m.lon1) < 360 - 37/10000)

instance (m : GridMsg) : Decidable (gridRaiseCondAmended m) := by
  unfold gridRaiseCondAmended
  infer_instance

/-! ## Four nearest points and value interpolation -/

/-- One point as returned by `ecc.codes_grib_find_nearest` (and by the fast
grid routine): latitude, longitude, value and flat index. -/
structure GridPoint where
  lat : ℚ
  lon : ℚ
  value : ℚ
  index : Nat
  deriving DecidableEq, Repr

/-- The sort key of `sorted(points, key=lambda point: point.lat)`. -/
def pointLatLe (p q : GridPoint) : Bool := p.lat ≤ q.lat

/-- Sort four points by latitude ascending (Python's stable `sorted`) and
group them as `(points[0], points[1]), (points[2], points[3])`; `none` when
the list does not have exactly four points. -/
def sortAndGroupByLat (ps : List GridPoint) :
    Option ((GridPoint × GridPoint) × (GridPoint × GridPoint)) :=
  match ps.mergeSort pointLatLe with
  | [a, b, c, d] => some ((a, b), (c, d))
  | _ => none

/-- The `eccodes` fallback branch of `GribMessage.get_four_nearest_points`:
`points = sorted(ecc.codes_grib_find_nearest(...), key=lambda p: p.lat);
return (points[0], points[1]), (points[2], points[3])`, given the four points
the library produced. -/
def fallbackFourNearestPoints (eccPoints : List GridPoint) :
    Option ((GridPoint × GridPoint) × (GridPoint × GridPoint)) :=
  sortAndGroupByLat eccPoints

/-- Modelled from the spec: `utils.four_nearest_points_in_rectangular_grid`
(module `utils` is not under `src/`).  The spec specifies that the four grid
points nearest the query are sorted by latitude ascending, the two
smallest-latitude points becoming `(a, b)` and the two largest `(c, d)`;
the four candidate points themselves are a parameter here. -/
def fourNearestPointsInRectangularGrid (candidates : List GridPoint) :
    Option ((GridPoint × GridPoint) × (GridPoint × GridPoint)) :=
  sortAndGroupByLat candidates

/-- `GribMessage.get_four_nearest_points` (without the cross-check assertion):
use the precomputed fast routine when one was installed, else fall back to the
decoding library's nearest-point query. -/
def getFourNearestPoints (fastCandidates : Option (List GridPoint))
    (eccPoints : List GridPoint) :
    Option ((GridPoint × GridPoint) × (GridPoint × GridPoint)) :=
  match fastCandidates with
  | some cs => fourNearestPointsInRectangularGrid cs
  | none => fallbackFourNearestPoints eccPoints

/-- Modelled from the spec: `utils.midpoint` (module `utils` is not under
`src/`) — the midpoint rule generalised by the fraction `p`: linear
interpolation between `x` and `y`. -/
def midpoint (x y p : ℚ) : ℚ := x + p * (y - x)

/-- Signed circular difference of two longitudes, in `[-180, 180)`. -/
def angSub (x y : ℚ) : ℚ := fmod360 (x - y + 180) - 180

/-- Modelled from the spec: `utils.Longitude` arithmetic together with
`utils.linear_interpolation` (module `utils` is not under `src/`) — linear
interpolation between `(x0, v0)` and `(x1, v1)` evaluated at `x`, with the
longitude distances computed on the circle (shortest angular path, i.e.
modulo 360°). -/
def lonLinearInterpolation (x x0 v0 x1 v1 : ℚ) : ℚ :=
  v0 + angSub x x0 / angSub x1 x0 * (v1 - v0)

/-- `GribMessage.get_value_at`: take the four nearest points grouped as
`(a, b), (c, d)`, compute `p = abs(lat - a.lat) / abs(c.lat - a.lat)`,
interpolate the stored values along each latitude band with `p`, then
interpolate over longitude at the query longitude. -/
def getValueAt (nr : (GridPoint × GridPoint) × (GridPoint × GridPoint))
    (valueByIndex : Nat → ℚ) (lat lon : ℚ) : ℚ :=
  let a := nr.1.1
  let b := nr.1.2
  let c := nr.2.1
  let d := nr.2.2
  let p := |lat - a.lat| / |c.lat - a.lat|
  let vac := midpoint (valueByIndex a.index) (valueByIndex c.index) p
  let vbd := midpoint (valueByIndex b.index) (valueByIndex d.index) p
  lonLinearInterpolation lon a.lon vac b.lon vbd

/-! ## Structured-array export (`GribMessage.to_numpy_array`) -/

/-- A 2D numpy array: dimensions plus the entry function (row, column). -/
structure Array2D where
  rows : Nat
  cols : Nat
  entry : Nat → Nat → ℚ

/-- `data.reshape((m, n))` of the flat value sequence (row-major). -/
def reshape2D (values : List ℚ) (m n : Nat) : Array2D :=
  { rows := m, cols := n, entry := fun i j => values.getD (i * n + j) 0 }

/-- `data.T`. -/
def transpose2D (a : Array2D) : Array2D :=
  { rows := a.cols, cols := a.rows, entry := fun i j => a.entry j i }

/-- `np.flip(data, axis=0)`. -/
def flipRows (a : Array2D) : Array2D :=
  { a with entry := fun i j => a.entry (a.rows - 1 - i) j }

/-- `np.flip(data, axis=1)`. -/
def flipCols (a : Array2D) : Array2D :=
  { a with entry := fun i j => a.entry i (a.cols - 1 - j) }

/-- `np.pad(data, ((0, 0), (0, 1)), mode='wrap')`: one extra column wrapping
around to the first column. -/
def padWrapCol (a : Array2D) : Array2D :=
  { a with cols := a.cols + 1, entry := fun i j => a.entry i (j % a.cols) }

/-- `np.linspace(a, b, num)`: `num` evenly spaced samples from `a` to `b`
inclusive. -/
def linspace (a b : ℚ) (num : Nat) : List ℚ :=
  (List.range num).map (fun (i : Nat) => a + (i : ℚ) * ((b - a) / ((num : ℚ) - 1)))

/-- Result of `to_numpy_array`: `None` (no regular grid), a propagated
`ValueError` from `_get_regular_grid_info`, or the data/coords triple. -/
inductive NumpyArrayResult
  | unavailable
  | gridError (msg : String)
  | ok (data : Array2D) (latCoords lonCoords : List ℚ)

/-- The circularity test of `to_numpy_array` on the (already flipped,
nonnegative) longitude spacing:
`np.isclose((n_lon * d_lon) % 360., [0., 360.], atol=1e-4).any()`. -/
def lonCircularTest (nLon : Nat) (dLon : ℚ) : Bool :=
  npIsClose (fmod360 ((nLon : ℚ) * dLon)) 0 || npIsClose (fmod360 ((nLon : ℚ) * dLon)) 360

/-- `GribMessage.to_numpy_array`: reshape the flat values by the grid shape,
transpose to latitude-major, flip each axis whose spacing is negative (swapping
the corresponding endpoints), pad one wrap-around longitude column when the
longitudes are circular, normalise the first longitude into `[-180, 180)` and
build the coordinate sequences with `np.linspace`. -/
def toNumpyArray (m : GridMsg) (values : List ℚ) : NumpyArrayResult :=
  match getRegularGridInfo m with
  | .notRegular => .unavailable
  | .gridError s => .gridError s
  | .ok d =>
    let data0 := if d.latMajor then reshape2D values d.nLat d.nLon
                 else reshape2D values d.nLon d.nLat
    let data1 := if d.latMajor then data0 else transpose2D data0
    let lat0 := if d.dLat < 0 then d.lat1 else d.lat0
    let lat1 := if d.dLat < 0 then d.lat0 else d.lat1
    let data2 := if d.dLat < 0 then flipRows data1 else data1
    let lon0 := if d.dLon < 0 then d.lon1 else d.lon0
    let dLon := if d.dLon < 0 then -d.dLon else d.dLon
    let data3 := if d.dLon < 0 then flipCols data2 else data2
    let circ := lonCircularTest d.nLon dLon
    let nLon := if circ then d.nLon + 1 else d.nLon
    let data4 := if circ then padWrapCol data3 else data3
    let latCoords := linspace lat0 lat1 d.nLat
    let lon0n := fmod360 (lon0 + 180) - 180
    let lonCoords := linspace lon0n (lon0n + ((nLon : ℚ) - 1) * dLon) nLon
    .ok data4 latCoords lonCoords

/-- The latitude coordinates of a successful `to_numpy_array` result. -/
def resultLatCoords : NumpyArrayResult → Option (List ℚ)
  | .ok _ lats _ => some lats
  | _ => none

/-- The longitude coordinates of a successful `to_numpy_array` result. -/
def resultLonCoords : NumpyArrayResult → Option (List ℚ)
  | .ok _ _ lons => some lons
  | _ => none

/-! ## Theorems -/

/-- C2: for every handle-owning wrapper (message, file, index) the handle
state is two-valued (live or released), the transition is one-directional,
a second `close()` is a no-op (the native release and the counter bump happen
at most once), and every use of the handle after release raises the defined
`ValueError` while a live handle is served. -/
theorem handle_lifecycle_contract (s : GState) (m : GribMessageH) (f : GribFileH)
    (x : GribIndexH) :
    (gmClose (gmClose s m).1 (gmClose s m).2 = gmClose s m
      ∧ (gmClose s m).2.id = none
      ∧ (gmClose s m).1.messagesReleased
          = s.messagesReleased + (if m.id.isSome then 1 else 0)
      ∧ gmGetId (gmClose s m).2 = .error (.valueError "GRIB message already released")
      ∧ (∀ i, m.id = some i → gmGetId m = .ok i))
    ∧ (gfClose (gfClose s f).1 (gfClose s f).2 = gfClose s f
      ∧ (gfClose s f).2.fileClosed = true
      ∧ (gfClose s f).1.filesClosed = s.filesClosed + (if f.fileClosed then 0 else 1)
      ∧ gfGetFile (gfClose s f).2 = .error (.valueError "GRIB file already closed")
      ∧ (f.fileClosed = false → gfGetFile f = .ok ()))
    ∧ (giClose (giClose s x).1 (giClose s x).2 = giClose s x
      ∧ (giClose s x).2.id = none
      ∧ (giClose s x).1.indicesReleased
          = s.indicesReleased + (if x.id.isSome then 1 else 0)
      ∧ giGetId (giClose s x).2 = .error (.valueError "GRIB index already released")
      ∧ (∀ i, x.id = some i → giGetId x = .ok i)) := by
  obtain ⟨mid, mho⟩ := m
  obtain ⟨fc⟩ := f
  obtain ⟨xid⟩ := x
  cases mid <;> cases fc <;> cases xid <;>
    simp [gmClose, gmGetId, gfClose, gfGetFile, giClose, giGetId]

/-- Witness for C2 at a concrete state and concrete live handles. -/
theorem handle_lifecycle_contract_witness :
    gmGetId { id := some 5, headersOnly := false } = .ok 5
    ∧ gfGetFile { fileClosed := false } = .ok ()
    ∧ giGetId { id := some 9 } = .ok 9 := by
  have h := handle_lifecycle_contract ⟨[], 0, 0, [], 0⟩ ⟨some 5, false⟩ ⟨false⟩ ⟨some 9⟩
  exact ⟨h.1.2.2.2.2 5 rfl, h.2.1.2.2.2.2 rfl, h.2.2.2.2.2.2 9 rfl⟩

/-- Auxiliary: the ids already recorded as released survive the cleanup loop. -/
theorem closeAllMessages_mono (l : List GribMessageH) (s : GState) (j : Nat)
    (hj : j ∈ s.releasedMessageIds) : j ∈ (closeAllMessages s l).releasedMessageIds := by
  induction l generalizing s with
  | nil => exact hj
  | cons m rest ih =>
      apply ih
      cases hm : m.id <;> simp [gmClose, hm, hj]

/-- Auxiliary: the cleanup loop `for msg in value: msg.close()` hands every
live collected id to `ecc.codes_release`. -/
theorem closeAllMessages_releases (l : List GribMessageH) (s : GState) :
    ∀ m ∈ l, ∀ i, m.id = some i → i ∈ (closeAllMessages s l).releasedMessageIds := by
  induction l generalizing s with
  | nil => intro m hm; cases hm
  | cons m rest ih =>
      intro m' hm' i hi
      show i ∈ (closeAllMessages (gmClose s m).1 rest).releasedMessageIds
      rcases List.mem_cons.mp hm' with rfl | hm'
      · apply closeAllMessages_mono
        simp [gmClose, hi]
      · exact ih (gmClose s m).1 m' hm' i hi

/-- C1: when `GribFileIndexedBy.__getitem__` propagates a decode error, every
message collected for that call has already been handed to
`ecc.codes_release` in the state the error propagates with. -/
theorem indexLookup_closes_collected_on_error (s : GState) (keys idx : List String)
    (strm : List DecodeStep) (s' : GState)
    (h : indexedGetItem s keys idx strm = (s', .decodeError)) :
    ∀ m ∈ (drainIndex strm []).1, ∀ i, m.id = some i → i ∈ s'.releasedMessageIds := by
  intro m hm i hi
  unfold indexedGetItem at h
  split at h
  · exact absurd (congrArg Prod.snd h) (by simp)
  · split at h
    · obtain rfl := (congrArg Prod.fst h).symm
      exact closeAllMessages_releases _ s m hm i hi
    · split at h <;> exact absurd (congrArg Prod.snd h) (by simp)

/-- Witness for C1: a lookup that collects ids 5 and 7 and then hits a decode
error has released both ids in the propagated state. -/
theorem indexLookup_closes_collected_on_error_witness :
    5 ∈ (indexedGetItem ⟨[], 0, 0, [], 0⟩ ["k"] ["v"] [.msg 5, .msg 7, .err]).1.releasedMessageIds
    ∧ 7 ∈ (indexedGetItem ⟨[], 0, 0, [], 0⟩ ["k"] ["v"] [.msg 5, .msg 7, .err]).1.releasedMessageIds := by
  have h : indexedGetItem ⟨[], 0, 0, [], 0⟩ ["k"] ["v"] [.msg 5, .msg 7, .err]
      = (⟨[5, 7], 2, 0, [], 0⟩, .decodeError) := by decide
  have h5 := indexLookup_closes_collected_on_error _ _ _ _ _ h
    ⟨some 5, false⟩ (by decide) 5 rfl
  have h7 := indexLookup_closes_collected_on_error _ _ _ _ _ h
    ⟨some 7, false⟩ (by decide) 7 rfl
  rw [h]
  exact ⟨h5, h7⟩

/-- C8: the unique-index lookup raises on more than one match (never silently
returning one of them), returns the single message itself on exactly one
match, and propagates the empty-match `KeyError` of the base lookup. -/
theorem uniqueLookup_contract (s : GState) (keys idx : List String)
    (strm : List DecodeStep) :
    (∀ s' msgs, indexedGetItem s keys idx strm = (s', .ok msgs) →
        (msgs.length > 1 → uniquelyIndexedGetItem s keys idx strm = (s', .ambiguousError))
        ∧ (∀ m, msgs = [m] → uniquelyIndexedGetItem s keys idx strm = (s', .ok m)))
    ∧ (∀ s', indexedGetItem s keys idx strm = (s', .emptyKeyError) →
        uniquelyIndexedGetItem s keys idx strm = (s', .emptyKeyError)) := by
  constructor
  · intro s' msgs h
    constructor
    · intro hlen
      simp [uniquelyIndexedGetItem, h, hlen]
    · rintro m rfl
      simp [uniquelyIndexedGetItem, h]
  · intro s' h
    simp [uniquelyIndexedGetItem, h]

/-- Witness for C8: two matches give the ambiguous-match error, a single
match returns the message itself. -/
theorem uniqueLookup_contract_witness :
    uniquelyIndexedGetItem ⟨[], 0, 0, [], 0⟩ ["k"] ["v"] [.msg 1, .msg 2, .stop]
      = (⟨[], 0, 0, [], 0⟩, .ambiguousError)
    ∧ uniquelyIndexedGetItem ⟨[], 0, 0, [], 0⟩ ["k"] ["v"] [.msg 3, .stop]
      = (⟨[], 0, 0, [], 0⟩, .ok ⟨some 3, false⟩) := by
  have h1 := (uniqueLookup_contract ⟨[], 0, 0, [], 0⟩ ["k"] ["v"] [.msg 1, .msg 2, .stop]).1
    ⟨[], 0, 0, [], 0⟩ [⟨some 1, false⟩, ⟨some 2, false⟩] (by decide)
  have h2 := (uniqueLookup_contract ⟨[], 0, 0, [], 0⟩ ["k"] ["v"] [.msg 3, .stop]).1
    ⟨[], 0, 0, [], 0⟩ [⟨some 3, false⟩] (by decide)
  exact ⟨h1.1 (by decide), h2.2 ⟨some 3, false⟩ rfl⟩

/-- C10: with a non-null `index_keys`, `open_grib` builds the indexed wrapper
without the headers-only flag — the result does not depend on `headers_only`
at all — and the messages produced by the index generator are constructed
with `headers_only` at its default `False` (fully decoded). -/
theorem openGrib_indexed_ignores_headersOnly :
    (∀ (f : String) (ks : List String) (u h h' c : Bool),
        openGrib f (some ks) u h c = openGrib f (some ks) u h' c)
    ∧ (∀ (f : String) (ks : List String) (h c : Bool),
        openGrib f (some ks) false h c = .indexed f ks c)
    ∧ (∀ (f : String) (ks : List String) (h c : Bool),
        openGrib f (some ks) true h c = .uniquelyIndexed f ks c)
    ∧ (∀ (f : String) (u h c : Bool), openGrib f none u h c = .file f h c)
    ∧ (∀ i, (messageFromIndexGenerator i).headersOnly = false) := by
  refine ⟨fun _ _ _ _ _ _ => rfl, fun _ _ _ _ => ?_, fun _ _ _ _ => ?_,
    fun _ _ _ _ => rfl, fun _ => rfl⟩ <;> simp [openGrib]

/-- C7: on a live message, item access raises the key-not-found error exactly
when the key is not defined; when the key is defined it returns a value even
if the value is flagged MISSING — then a warning is logged — and the value is
the key's array of values when its cardinality exceeds 1, else the scalar. -/
theorem msgGetItem_contract (mh : GribMessageH) (m : MsgKeys) (k : String)
    (i : Nat) (hlive : mh.id = some i) :
    ((msgGetItemLive mh m k).2 = .error (.keyError k) ↔ m.isDefined k = false)
    ∧ (m.isDefined k = true →
        (msgGetItemLive mh m k).1 = (if m.isMissing k then [k] else [])
        ∧ (msgGetItemLive mh m k).2 =
            .ok (if m.size k > 1 then .array (m.getArray k) else .scalar (m.getScalar k))) := by
  have hmh : msgGetItemLive mh m k = msgGetItem m k := by
    unfold msgGetItemLive
    rw [hlive]
  rw [hmh]
  unfold msgGetItem msgContains
  by_cases hdef : m.isDefined k <;> by_cases hsz : m.size k > 1 <;>
    simp [hdef, hsz]

/-- Witness for C7 at a concrete live message and key environment: the known
key yields its scalar (with a MISSING warning), the unknown key fails. -/
theorem msgGetItem_contract_witness :
    (msgGetItemLive ⟨some 3, false⟩
        ⟨fun k => k == "t", fun _ => true, fun _ => 1, fun _ => .pyInt 7, fun _ => []⟩
        "t").1 = ["t"]
    ∧ (msgGetItemLive ⟨some 3, false⟩
        ⟨fun k => k == "t", fun _ => true, fun _ => 1, fun _ => .pyInt 7, fun _ => []⟩
        "t").2 = .ok (.scalar (.pyInt 7))
    ∧ (msgGetItemLive ⟨some 3, false⟩
        ⟨fun k => k == "t", fun _ => true, fun _ => 1, fun _ => .pyInt 7, fun _ => []⟩
        "q").2 = .error (.keyError "q") := by
  have h1 := msgGetItem_contract ⟨some 3, false⟩
    ⟨fun k => k == "t", fun _ => true, fun _ => 1, fun _ => .pyInt 7, fun _ => []⟩
    "t" 3 rfl
  have h2 := msgGetItem_contract ⟨some 3, false⟩
    ⟨fun k => k == "t", fun _ => true, fun _ => 1, fun _ => .pyInt 7, fun _ => []⟩
    "q" 3 rfl
  refine ⟨(h1.2 rfl).1, ?_, h2.1.mpr rfl⟩
  have := (h1.2 rfl).2
  simpa using this

/-- Auxiliary: closed form of `get_metadata`'s probe loop `mget`. -/
theorem mget_eq_firstTruthyProbe (m : MsgKeys) (keys : List String) :
    mget m keys = firstTruthyProbe m keys := by
  induction keys with
  | nil => rfl
  | cons k rest ih =>
      cases rest with
      | nil =>
          by_cases hk : (m.get k).truthy <;>
            simp [mget, firstTruthyProbe, List.find?, hk]
      | cons k' rest' =>
          by_cases hk : (m.get k).truthy
          · simp [mget, firstTruthyProbe, List.find?, hk]
          · rw [show mget m (k :: k' :: rest') = mget m (k' :: rest') by
                simp [mget, hk], ih]
            unfold firstTruthyProbe
            have hfind : List.find? (fun x => (m.get x).truthy) (k :: k' :: rest')
                = List.find? (fun x => (m.get x).truthy) (k' :: rest') := by
              apply List.find?_cons_of_neg
              simpa using hk
            rw [hfind, List.getLast?_cons_cons]

/-- C9 (amended): each classification field of `get_metadata` is the value of
the first candidate key whose value is truthy; when no candidate's value is
truthy the last candidate's value is kept (so a key that is defined with a
falsy value — empty string or 0 — is skipped, not taken). -/
theorem metadataClassification_firstTruthy (m : MsgKeys) :
    getMetadataClassification m =
      (firstTruthyProbe m [gkCLASS, "class"],
       firstTruthyProbe m [gkSTREAM, "stream"],
       firstTruthyProbe m [gkTYPE, "type"]) := by
  unfold getMetadataClassification
  rw [mget_eq_firstTruthyProbe, mget_eq_firstTruthyProbe, mget_eq_firstTruthyProbe]

/-- A message whose Mars class key is defined but holds the empty string,
while the plain `class` key holds `"ea"`. -/
def classFalsyEnv : MsgKeys where
  isDefined k := k == gkCLASS || k == "class"
  isMissing _ := false
  size _ := 1
  getScalar k := if k == gkCLASS then .pyStr "" else if k == "class" then .pyStr "ea" else .pyNone
  getArray _ := []

/-- C9 counterexample: on `classFalsyEnv` the first candidate key for the
`class` field is defined (with the falsy value `""`), yet `get_metadata` fills
the field from the second candidate — not from the first defined key as the
claim states. -/
theorem metadataClassification_counterexample :
    classFalsyEnv.isDefined gkCLASS = true
    ∧ specFirstDefinedValue classFalsyEnv [gkCLASS, "class"] = .pyStr ""
    ∧ (getMetadataClassification classFalsyEnv).1 = .pyStr "ea"
    ∧ (getMetadataClassification classFalsyEnv).1
        ≠ specFirstDefinedValue classFalsyEnv [gkCLASS, "class"] := by
  refine ⟨rfl, ?_, ?_, ?_⟩ <;> decide

/-- `fmod360` is `360` times the fractional part of `x / 360`. -/
theorem fmod360_eq_fract (x : ℚ) : fmod360 x = 360 * Int.fract (x / 360) := by
  unfold fmod360 Int.fract
  rw [mul_sub]
  congr 1
  rw [mul_div_cancel₀]
  norm_num

/-- Python's float modulo by `360.` is nonnegative. -/
theorem fmod360_nonneg (x : ℚ) : 0 ≤ fmod360 x := by
  rw [fmod360_eq_fract]
  exact mul_nonneg (by norm_num) (Int.fract_nonneg _)

/-- Python's float modulo by `360.` stays below `360`. -/
theorem fmod360_lt_360 (x : ℚ) : fmod360 x < 360 := by
  rw [fmod360_eq_fract]
  have h := Int.fract_lt_one (x / 360)
  nlinarith

/-- Adding a full turn does not change the reduced angle. -/
theorem fmod360_add_360 (x : ℚ) : fmod360 (x + 360) = fmod360 x := by
  unfold fmod360
  rw [show (x + 360) / 360 = x / 360 + 1 by ring, Int.floor_add_one]
  push_cast
  ring

/-- C3 (amended): for a message with values, simple packing and a regular
lat/lon grid, `_get_regular_grid_info` raises `ValueError` exactly when a grid
size is `≤ 1`, the latitude reconstruction misses `lat1` by more than `1e-4`,
or the longitude reconstruction reduced mod 360 lands farther than `1e-4`
from `0` and farther than `1e-4 + 360 * 1e-5` from `360` (the asymmetric
tolerance of `np.isclose(·, [0., 360.], atol=1e-4)` with its default
`rtol=1e-5`); otherwise it returns the grid tuple. -/
theorem regularGridInfo_raises_iff_amended (m : GridMsg)
    (hv : m.hasValues = true) (hp : m.packingType = some packingTypeGridSimple)
    (hg : m.gridType = some gridTypeRegularLL) :
    ((getRegularGridInfo m).isGridError = true ↔ gridRaiseCondAmended m)
    ∧ (¬ gridRaiseCondAmended m →
        getRegularGridInfo m =
          .ok { lat0 := m.lat0, lat1 := m.lat1, dLat := signedDLat m, nLat := m.nLat,
                lon0 := m.lon0, lon1 := m.lon1, dLon := signedDLon m, nLon := m.nLon,
                latMajor := ! m.latMinorLonMajor }) := by
  have hval : 0 ≤ fmod360 (m.lon0 + ((m.nLon : ℚ) - 1) * signedDLon m - m.lon1) :=
    fmod360_nonneg _
  have hvlt : fmod360 (m.lon0 + ((m.nLon : ℚ) - 1) * signedDLon m - m.lon1) < 360 :=
    fmod360_lt_360 _
  have hlat : (¬ npIsClose (m.lat0 + ((m.nLat : ℚ) - 1) * signedDLat m - m.lat1) 0 = true)
      ↔ 1/10000 < |m.lat0 + ((m.nLat : ℚ) - 1) * signedDLat m - m.lat1| := by
    unfold npIsClose
    rw [decide_eq_true_eq, sub_zero, abs_zero]
    constructor <;> intro h <;> [linarith [not_le.mp h]; exact not_le.mpr (by linarith)]
  have hlon : (¬ (npIsClose (fmod360 (m.lon0 + ((m.nLon : ℚ) - 1) * signedDLon m - m.lon1)) 0 = true
        ∨ npIsClose (fmod360 (m.lon0 + ((m.nLon : ℚ) - 1) * signedDLon m - m.lon1)) 360 = true))
      ↔ (1/10000 < fmod360 (m.lon0 + ((m.nLon : ℚ) - 1) * signedDLon m - m.lon1)
         ∧ fmod360 (m.lon0 + ((m.nLon : ℚ) - 1) * signedDLon m - m.lon1) < 360 - 37/10000) := by
    unfold npIsClose
    rw [decide_eq_true_eq, decide_eq_true_eq, sub_zero, abs_zero,
      abs_of_nonneg hval, abs_of_nonpos (by linarith),
      show |(360:ℚ)| = 360 by norm_num, not_or, not_le, not_le]
    constructor <;> intro h <;> exact ⟨by linarith [h.1], by linarith [h.2]⟩
  unfold getRegularGridInfo
  rw [if_neg (by simp [hv, hp, hg])]
  by_cases h1 : m.nLat ≤ 1
  · rw [if_pos h1]
    exact ⟨by simp [GridInfoResult.isGridError, gridRaiseCondAmended, h1],
      fun h => absurd (Or.inl h1) h⟩
  · rw [if_neg h1]
    by_cases h2 : m.nLon ≤ 1
    · rw [if_pos h2]
      exact ⟨by simp [GridInfoResult.isGridError, gridRaiseCondAmended, h2],
        fun h => absurd (Or.inr (Or.inl h2)) h⟩
    · rw [if_neg h2]
      by_cases h3 : npIsClose (m.lat0 + ((m.nLat : ℚ) - 1) * signedDLat m - m.lat1) 0 = true
      · rw [if_neg (not_not_intro h3)]
        by_cases h4 : (npIsClose (fmod360 (m.lon0 + ((m.nLon : ℚ) - 1) * signedDLon m - m.lon1)) 0 = true
            ∨ npIsClose (fmod360 (m.lon0 + ((m.nLon : ℚ) - 1) * signedDLon m - m.lon1)) 360 = true)
        · rw [if_neg (not_not_intro h4)]
          constructor
          · simp only [GridInfoResult.isGridError]
            constructor
            · intro h; cases h
            · intro hc
              rcases hc with hc | hc | hc | hc
              · exact absurd hc h1
              · exact absurd hc h2
              · exact absurd h3 (hlat.mpr hc)
              · exact absurd h4 (hlon.mpr hc)
          · intro _; rfl
        · rw [if_pos h4]
          refine ⟨⟨fun _ => Or.inr (Or.inr (Or.inr (hlon.mp h4))), fun _ => rfl⟩, ?_⟩
          intro h
          exact absurd (Or.inr (Or.inr (Or.inr (hlon.mp h4)))) h
      · rw [if_pos h3]
        refine ⟨⟨fun _ => Or.inr (Or.inr (Or.inl (hlat.mp h3))), fun _ => rfl⟩, ?_⟩
        intro h
        exact absurd (Or.inr (Or.inr (Or.inl (hlat.mp h3)))) h

/-- A message whose longitude reconstruction misses `lon1` by `0.001` on the
circle — more than the claimed `1e-4` tolerance — yet lands within the code's
`np.isclose(·, 360., atol=1e-4, rtol=1e-5)` acceptance band. -/
def lonToleranceMsg : GridMsg where
  hasValues := true
  packingType := some packingTypeGridSimple
  gridType := some gridTypeRegularLL
  lat0 := 0
  lon0 := 0
  lat1 := 1/10
  lon1 := 180 + 1/1000
  deltaLat := 1/10
  deltaLatPositive := true
  deltaLon := 180
  deltaLonNegative := false
  latMinorLonMajor := false
  nLat := 2
  nLon := 2

/-- C3 counterexample: on `lonToleranceMsg` the reconstructed last longitude
differs from `lon1` by `0.001 > 1e-4` on the circle, so the claim demands a
`ValueError`, but `_get_regular_grid_info` accepts the grid and returns the
descriptor (the `np.isclose` comparison against `360.` adds `rtol * 360`
to the tolerance). -/
theorem regularGridInfo_lonTolerance_counterexample :
    1/10000 <
      circDist (lonToleranceMsg.lon0
        + ((lonToleranceMsg.nLon : ℚ) - 1) * signedDLon lonToleranceMsg)
        lonToleranceMsg.lon1
    ∧ getRegularGridInfo lonToleranceMsg
        = .ok { lat0 := 0, lat1 := 1/10, dLat := 1/10, nLat := 2,
                lon0 := 0, lon1 := 180 + 1/1000, dLon := 180, nLon := 2,
                latMajor := true } := by
  constructor
  · show (1:ℚ)/10000 < circDist (0 + ((2:ℚ) - 1) * signedDLon lonToleranceMsg) (180 + 1/1000)
    have hd : signedDLon lonToleranceMsg = 180 := by
      norm_num [signedDLon, lonToleranceMsg]
    rw [hd]
    have hm : fmod360 ((0 + ((2:ℚ) - 1) * 180) - (180 + 1/1000)) = 359999/1000 := by
      norm_num [fmod360]
    unfold circDist
    rw [hm]
    norm_num
  · have hd : signedDLon lonToleranceMsg = 180 := by
      norm_num [signedDLon, lonToleranceMsg]
    have hdlat : signedDLat lonToleranceMsg = 1/10 := by
      norm_num [signedDLat, lonToleranceMsg,
        abs_of_nonneg (show (0:ℚ) ≤ 1/10 by norm_num)]
    unfold getRegularGridInfo
    rw [if_neg (not_not_intro ⟨rfl, rfl, rfl⟩)]
    dsimp only
    rw [hd, hdlat]
    rw [if_neg (by norm_num [lonToleranceMsg]),
      if_neg (by norm_num [lonToleranceMsg]),
      if_neg (not_not_intro (by norm_num [npIsClose, lonToleranceMsg])),
      if_neg (not_not_intro (Or.inr (by
        norm_num [npIsClose, fmod360, lonToleranceMsg,
          abs_of_nonneg (show (0:ℚ) ≤ 1/1000 by norm_num)])))]
    norm_num [lonToleranceMsg]

/-- Witness for C3's amended theorem: a perfectly consistent 2×2 grid is
accepted with the expected descriptor. -/
theorem regularGridInfo_raises_iff_amended_witness :
    getRegularGridInfo
      { hasValues := true, packingType := some packingTypeGridSimple,
        gridType := some gridTypeRegularLL,
        lat0 := 0, lon0 := 0, lat1 := 1, lon1 := 1,
        deltaLat := 1, deltaLatPositive := true,
        deltaLon := 1, deltaLonNegative := false,
        latMinorLonMajor := false, nLat := 2, nLon := 2 }
      = .ok { lat0 := 0, lat1 := 1, dLat := 1, nLat := 2,
              lon0 := 0, lon1 := 1, dLon := 1, nLon := 2, latMajor := true } := by
  have hraise : ¬ gridRaiseCondAmended
      { hasValues := true, packingType := some packingTypeGridSimple,
        gridType := some gridTypeRegularLL,
        lat0 := 0, lon0 := 0, lat1 := 1, lon1 := 1,
        deltaLat := 1, deltaLatPositive := true,
        deltaLon := 1, deltaLonNegative := false,
        latMinorLonMajor := false, nLat := 2, nLon := 2 } := by
    norm_num [gridRaiseCondAmended, signedDLat, signedDLon, fmod360]
  have h := (regularGridInfo_raises_iff_amended _ rfl rfl rfl).2 hraise
  rw [h]
  norm_num [GridInfoResult.ok.injEq, GridDescriptor.mk.injEq, signedDLat, signedDLon]

/-- Auxiliary: `pointLatLe` is transitive (needed for the sort lemma). -/
theorem pointLatLe_trans (a b c : GridPoint) (h1 : pointLatLe a b = true)
    (h2 : pointLatLe b c = true) : pointLatLe a c = true := by
  unfold pointLatLe at *
  rw [decide_eq_true_eq] at *
  linarith

/-- Auxiliary: `pointLatLe` is total (needed for the sort lemma). -/
theorem pointLatLe_total (a b : GridPoint) : (pointLatLe a b || pointLatLe b a) = true := by
  unfold pointLatLe
  rcases le_total a.lat b.lat with h | h <;> simp [h]

/-- C5: a four-point list grouped by `sortAndGroupByLat` yields pairs
`((a, b), (c, d))` that are a permutation of the input with
`a.lat ≤ b.lat ≤ c.lat ≤ d.lat` — the first pair holds the two
smallest-latitude points and the second pair the two largest.  Both branches
of `get_four_nearest_points` reduce to this grouping: the `eccodes` fallback
sorts the library's four points, the fast-grid routine (modelled from the
spec) does the same to the grid's four candidate points. -/
theorem fourNearestPoints_latBands (fastCandidates : Option (List GridPoint))
    (eccPoints : List GridPoint)
    (hlen : (fastCandidates.getD eccPoints).length = 4) :
    ∃ a b c d, getFourNearestPoints fastCandidates eccPoints = some ((a, b), (c, d))
      ∧ ([a, b, c, d]).Perm (fastCandidates.getD eccPoints)
      ∧ a.lat ≤ b.lat ∧ b.lat ≤ c.lat ∧ c.lat ≤ d.lat := by
  have key : ∀ ps : List GridPoint, ps.length = 4 →
      ∃ a b c d, sortAndGroupByLat ps = some ((a, b), (c, d))
      ∧ ([a, b, c, d]).Perm ps
      ∧ a.lat ≤ b.lat ∧ b.lat ≤ c.lat ∧ c.lat ≤ d.lat := by
    intro ps hl
    have hperm : (ps.mergeSort pointLatLe).Perm ps := List.mergeSort_perm ps _
    have hsorted : List.Pairwise (fun p q => pointLatLe p q = true) (ps.mergeSort pointLatLe) :=
      List.sorted_mergeSort pointLatLe_trans pointLatLe_total ps
    have hlen4 : (ps.mergeSort pointLatLe).length = 4 := by
      rw [hperm.length_eq, hl]
    match hm : ps.mergeSort pointLatLe, hlen4 with
    | [a, b, c, d], _ =>
        rw [hm] at hperm hsorted
        simp only [List.pairwise_cons] at hsorted
        refine ⟨a, b, c, d, ?_, hperm, ?_, ?_, ?_⟩
        · unfold sortAndGroupByLat
          rw [hm]
        · simpa [pointLatLe] using hsorted.1 b (by simp)
        · simpa [pointLatLe] using hsorted.2.1 c (by simp)
        · simpa [pointLatLe] using hsorted.2.2.1 d (by simp)
  cases fastCandidates with
  | none => exact key eccPoints (by simpa using hlen)
  | some cs => exact key cs (by simpa using hlen)

unseal List.merge List.mergeSort

/-- Witness for C5: four concrete points in scrambled order are regrouped
into ascending latitude bands, as a permutation of the input. -/
theorem fourNearestPoints_latBands_witness :
    getFourNearestPoints none
      [⟨10, 0, 1, 0⟩, ⟨0, 0, 2, 1⟩, ⟨10, 1, 3, 2⟩, ⟨0, 1, 4, 3⟩]
      = some ((⟨0, 0, 2, 1⟩, ⟨0, 1, 4, 3⟩), (⟨10, 0, 1, 0⟩, ⟨10, 1, 3, 2⟩))
    ∧ ([⟨0, 0, 2, 1⟩, ⟨0, 1, 4, 3⟩, ⟨10, 0, 1, 0⟩, ⟨10, 1, 3, 2⟩] : List GridPoint).Perm
        [⟨10, 0, 1, 0⟩, ⟨0, 0, 2, 1⟩, ⟨10, 1, 3, 2⟩, ⟨0, 1, 4, 3⟩] := by
  obtain ⟨a, b, c, d, h1, h2, -⟩ := fourNearestPoints_latBands none
    [⟨10, 0, 1, 0⟩, ⟨0, 0, 2, 1⟩, ⟨10, 1, 3, 2⟩, ⟨0, 1, 4, 3⟩] rfl
  have he : getFourNearestPoints none
      [⟨10, 0, 1, 0⟩, ⟨0, 0, 2, 1⟩, ⟨10, 1, 3, 2⟩, ⟨0, 1, 4, 3⟩]
      = some ((⟨0, 0, 2, 1⟩, ⟨0, 1, 4, 3⟩), (⟨10, 0, 1, 0⟩, ⟨10, 1, 3, 2⟩)) := rfl
  refine ⟨he, ?_⟩
  rw [he] at h1
  simp only [Option.some.injEq, Prod.mk.injEq] at h1
  obtain ⟨⟨rfl, rfl⟩, rfl, rfl⟩ := h1
  exact h2

/-- C4: with the four nearest points grouped as `((a, b), (c, d))` and
`a.lat ≠ c.lat`, `get_value_at` is the two-stage bilinear formula — vertical
fraction `p = |lat - a.lat| / |c.lat - a.lat|`, interpolation of the values
at `a`/`c` and at `b`/`d` by `p`, then linear interpolation over longitude
between `(a.lon, v_ac)` and `(b.lon, v_bd)` at the query longitude — and the
longitude distances are taken on the circle: adding a full 360° turn to the
query longitude does not change the result. -/
theorem getValueAt_bilinear (nr : (GridPoint × GridPoint) × (GridPoint × GridPoint))
    (vbi : Nat → ℚ) (lat lon : ℚ) (hdeg : nr.1.1.lat ≠ nr.2.1.lat) :
    (getValueAt nr vbi lat lon =
      (vbi nr.1.1.index
        + |lat - nr.1.1.lat| / |nr.2.1.lat - nr.1.1.lat|
          * (vbi nr.2.1.index - vbi nr.1.1.index))
      + angSub lon nr.1.1.lon / angSub nr.1.2.lon nr.1.1.lon
        * ((vbi nr.1.2.index
            + |lat - nr.1.1.lat| / |nr.2.1.lat - nr.1.1.lat|
              * (vbi nr.2.2.index - vbi nr.1.2.index))
           - (vbi nr.1.1.index
            + |lat - nr.1.1.lat| / |nr.2.1.lat - nr.1.1.lat|
              * (vbi nr.2.1.index - vbi nr.1.1.index))))
    ∧ getValueAt nr vbi lat (lon + 360) = getValueAt nr vbi lat lon := by
  constructor
  · rfl
  · have hang : angSub (lon + 360) nr.1.1.lon = angSub lon nr.1.1.lon := by
      unfold angSub
      rw [show lon + 360 - nr.1.1.lon + 180 = (lon - nr.1.1.lon + 180) + 360 by ring,
        fmod360_add_360]
    unfold getValueAt lonLinearInterpolation
    dsimp only
    rw [hang]

/-- Witness for C4: on a concrete 2×2 cell the interpolated value is
unchanged when the query longitude is shifted by a full turn. -/
theorem getValueAt_bilinear_witness :
    getValueAt ((⟨0, 0, 0, 0⟩, ⟨0, 10, 0, 1⟩), (⟨10, 0, 0, 2⟩, ⟨10, 10, 0, 3⟩))
      (fun i => (i : ℚ)) 5 (2 + 360)
      = getValueAt ((⟨0, 0, 0, 0⟩, ⟨0, 10, 0, 1⟩), (⟨10, 0, 0, 2⟩, ⟨10, 10, 0, 3⟩))
      (fun i => (i : ℚ)) 5 2 :=
  (getValueAt_bilinear ((⟨0, 0, 0, 0⟩, ⟨0, 10, 0, 1⟩), (⟨10, 0, 0, 2⟩, ⟨10, 10, 0, 3⟩))
    (fun i => (i : ℚ)) 5 2 (by norm_num)).2

/-- The flat position in the raw value sequence that ends up at `(i, j)` of
the latitude-major array: undo the axis flips, then index row-major or
column-major according to which axis varies fastest. -/
def gridFlatIndex (d : GridDescriptor) (i j : Nat) : Nat :=
  (if d.latMajor then (fun r c => r * d.nLon + c) else (fun r c => c * d.nLat + r))
    (if d.dLat < 0 then d.nLat - 1 - i else i)
    (if d.dLon < 0 then d.nLon - 1 - j else j)

/-- `linspace` produces `num` samples. -/
theorem linspace_length (a b : ℚ) (num : Nat) : (linspace a b num).length = num := by
  simp [linspace]

/-- The first `linspace` sample is the left endpoint. -/
theorem linspace_head (a b : ℚ) (k : Nat) : (linspace a b (k + 1)).head? = some a := by
  unfold linspace
  rw [List.range_succ_eq_map]
  simp

/-- `linspace` is strictly increasing when the endpoints are. -/
theorem linspace_chain_lt (a b : ℚ) (num : Nat) (h : a < b) :
    (linspace a b num).Chain' (· < ·) := by
  unfold linspace
  rw [List.chain'_map]
  cases num with
  | zero => simp
  | succ k =>
      rw [List.chain'_range_succ]
      intro i hi
      have hk1 : 1 ≤ k := by omega
      have hk : (0 : ℚ) < ((k + 1 : ℕ) : ℚ) - 1 := by
        have h1 : (1 : ℚ) ≤ (k : ℚ) := by exact_mod_cast hk1
        push_cast
        linarith
      have hs : 0 < (b - a) / (((k + 1 : ℕ) : ℚ) - 1) := div_pos (by linarith) hk
      push_cast at hs ⊢
      nlinarith [hs]

/-- The reduced angle of the negation. -/
theorem fmod360_neg (x : ℚ) :
    fmod360 (-x) = if fmod360 x = 0 then 0 else 360 - fmod360 x := by
  have hx : fmod360 x = 360 * Int.fract (x / 360) := fmod360_eq_fract x
  have hnx : fmod360 (-x) = 360 * Int.fract (-(x / 360)) := by
    rw [fmod360_eq_fract, show (-x) / 360 = -(x / 360) by ring]
  by_cases h : Int.fract (x / 360) = 0
  · rw [hnx, Int.fract_neg_eq_zero.mpr h, if_pos (by rw [hx, h]; ring)]
    ring
  · rw [hnx, Int.fract_neg h, if_neg (by rw [hx]; intro hc; exact h (by linarith))]
    rw [hx]
    ring

/-- Shortest circular distance to `0` is symmetric under negation. -/
theorem circDist_neg_zero (x : ℚ) : circDist (-x) 0 = circDist x 0 := by
  unfold circDist
  rw [sub_zero, sub_zero, fmod360_neg]
  by_cases h : fmod360 x = 0
  · rw [if_pos h, h]
  · rw [if_neg h, show (360 : ℚ) - (360 - fmod360 x) = fmod360 x by ring]
    exact min_comm _ _

/-- Inversion of a successful `_get_regular_grid_info`: both grid sizes are at
least 2 and the latitude endpoints are consistent within `1e-4`. -/
theorem getRegularGridInfo_ok_inv (m : GridMsg) (d : GridDescriptor)
    (hd : getRegularGridInfo m = .ok d) :
    2 ≤ d.nLat ∧ 2 ≤ d.nLon
    ∧ |d.lat0 + ((d.nLat : ℚ) - 1) * d.dLat - d.lat1| ≤ 1/10000 := by
  unfold getRegularGridInfo at hd
  dsimp only at hd
  split at hd
  · cases hd
  split at hd
  · cases hd
  split at hd
  · cases hd
  split at hd
  · cases hd
  split at hd
  · cases hd
  injection hd with hd
  subst hd
  rename_i hguard h1 h2 h3 h4
  refine ⟨?_, ?_, ?_⟩
  · show 2 ≤ m.nLat
    omega
  · show 2 ≤ m.nLon
    omega
  · show |m.lat0 + ((m.nLat : ℚ) - 1) * signedDLat m - m.lat1| ≤ 1/10000
    have h3' := not_not.mp h3
    unfold npIsClose at h3'
    rw [decide_eq_true_eq, sub_zero, abs_zero] at h3'
    linarith

set_option maxHeartbeats 2000000 in
/-- C6 (amended): for a message with a valid grid descriptor,
`to_numpy_array` returns a latitude-major array (`n_lat` rows; entry `(i, j)`
is the flat value at the flip/transpose-adjusted position) with one extra
wrap-around longitude column exactly when the code's circularity test fires
(which it does whenever `n_lon * d_lon` is within `1e-4` of `0` mod 360);
the first longitude lies in `[-180, 180)`; the latitude coordinates are
strictly increasing provided `|d_lat| * (n_lat - 1) > 1e-4` and the longitude
coordinates provided `d_lon ≠ 0` (with zero or tolerance-dominated spacing
the sequences need not strictly increase). -/
theorem toNumpyArray_amended (m : GridMsg) (values : List ℚ) (d : GridDescriptor)
    (hd : getRegularGridInfo m = .ok d) :
    ∃ data lats lons, toNumpyArray m values = .ok data lats lons
      ∧ data.rows = d.nLat
      ∧ data.cols = (if lonCircularTest d.nLon (if d.dLon < 0 then -d.dLon else d.dLon)
                     then d.nLon + 1 else d.nLon)
      ∧ lats.length = d.nLat
      ∧ lons.length = data.cols
      ∧ (∀ x, lons.head? = some x → -180 ≤ x ∧ x < 180)
      ∧ (∀ i j, j < d.nLon → data.entry i j = values.getD (gridFlatIndex d i j) 0)
      ∧ (lonCircularTest d.nLon (if d.dLon < 0 then -d.dLon else d.dLon) = true →
          ∀ i, data.entry i d.nLon = data.entry i 0)
      ∧ (circDist ((d.nLon : ℚ) * d.dLon) 0 ≤ 1/10000 →
          lonCircularTest d.nLon (if d.dLon < 0 then -d.dLon else d.dLon) = true)
      ∧ (1/10000 < |d.dLat| * ((d.nLat : ℚ) - 1) → lats.Chain' (· < ·))
      ∧ (d.dLon ≠ 0 → lons.Chain' (· < ·)) := by
  obtain ⟨hnlat, hnlon, hlatc⟩ := getRegularGridInfo_ok_inv m d hd
  unfold toNumpyArray
  rw [hd]
  dsimp only
  set dp : ℚ := if d.dLon < 0 then -d.dLon else d.dLon with hdp
  set circ : Bool := lonCircularTest d.nLon dp with hcirc
  refine ⟨_, _, _, rfl, ?_, ?_, ?_, ?_, ?_, ?_, ?_, ?_, ?_, ?_⟩
  · -- rows = n_lat
    by_cases hlm : d.latMajor <;> by_cases h5 : d.dLat < 0 <;> by_cases h6 : d.dLon < 0 <;>
      by_cases hc : circ <;>
      simp [hlm, h5, h6, hc, padWrapCol, flipCols, flipRows, transpose2D, reshape2D]
  · -- cols = n_lon (+ 1 when circular)
    by_cases hlm : d.latMajor <;> by_cases h5 : d.dLat < 0 <;> by_cases h6 : d.dLon < 0 <;>
      by_cases hc : circ <;>
      simp [hlm, h5, h6, hc, padWrapCol, flipCols, flipRows, transpose2D, reshape2D]
  · -- |lats| = n_lat
    exact linspace_length _ _ _
  · -- |lons| = cols
    by_cases hlm : d.latMajor <;> by_cases h5 : d.dLat < 0 <;> by_cases h6 : d.dLon < 0 <;>
      by_cases hc : circ <;>
      simp [hlm, h5, h6, hc, padWrapCol, flipCols, flipRows, transpose2D, reshape2D,
        linspace_length]
  · -- first longitude in [-180, 180)
    intro x hx
    obtain ⟨k, hk⟩ : ∃ k, (if circ then d.nLon + 1 else d.nLon) = k + 1 :=
      ⟨(if circ then d.nLon + 1 else d.nLon) - 1, by by_cases hc : circ <;> simp [hc] <;> omega⟩
    rw [hk, linspace_head] at hx
    obtain rfl : x = fmod360 ((if d.dLon < 0 then d.lon1 else d.lon0) + 180) - 180 :=
      (Option.some.injEq .. ▸ hx).symm
    constructor
    · have := fmod360_nonneg ((if d.dLon < 0 then d.lon1 else d.lon0) + 180)
      linarith
    · have := fmod360_lt_360 ((if d.dLon < 0 then d.lon1 else d.lon0) + 180)
      linarith
  · -- entries of the first n_lon columns
    intro i j hj
    by_cases hlm : d.latMajor <;> by_cases h5 : d.dLat < 0 <;> by_cases h6 : d.dLon < 0 <;>
      by_cases hc : circ <;>
      simp [hlm, h5, h6, hc, padWrapCol, flipCols, flipRows, transpose2D, reshape2D,
        gridFlatIndex, Nat.mod_eq_of_lt hj]
  · -- circular padding wraps the first column
    intro hc i
    by_cases hlm : d.latMajor <;> by_cases h5 : d.dLat < 0 <;> by_cases h6 : d.dLon < 0 <;>
      simp [hlm, h5, h6, hc, padWrapCol, flipCols, flipRows, transpose2D, reshape2D,
        Nat.mod_self, Nat.zero_mod]
  · -- the claimed circularity condition triggers the code's test
    intro hcd
    have hc2 : circDist ((d.nLon : ℚ) * dp) 0 ≤ 1/10000 := by
      rw [hdp, show ((d.nLon : ℚ)) * (if d.dLon < 0 then -d.dLon else d.dLon)
          = (if d.dLon < 0 then -((d.nLon : ℚ) * d.dLon) else (d.nLon : ℚ) * d.dLon) by
        split <;> ring]
      split
      · rw [circDist_neg_zero]
        exact hcd
      · exact hcd
    have h0 : 0 ≤ fmod360 ((d.nLon : ℚ) * dp) := fmod360_nonneg _
    have h360 : fmod360 ((d.nLon : ℚ) * dp) < 360 := fmod360_lt_360 _
    unfold circDist at hc2
    rw [sub_zero] at hc2
    rw [hcirc]
    unfold lonCircularTest
    rcases min_le_iff.mp hc2 with hle | hge
    · have hb : npIsClose (fmod360 ((d.nLon : ℚ) * dp)) 0 = true := by
        unfold npIsClose
        rw [decide_eq_true_eq, sub_zero, abs_zero, abs_of_nonneg h0]
        linarith
      simp [hb]
    · have hb : npIsClose (fmod360 ((d.nLon : ℚ) * dp)) 360 = true := by
        unfold npIsClose
        rw [decide_eq_true_eq, abs_of_nonpos (by linarith),
          show |(360:ℚ)| = 360 by norm_num]
        linarith
      simp [hb]
  · -- latitude coordinates strictly increase
    intro hm6
    apply linspace_chain_lt
    have hcast : (2 : ℚ) ≤ (d.nLat : ℚ) := by exact_mod_cast hnlat
    obtain ⟨ha1, ha2⟩ := abs_le.mp hlatc
    by_cases h5 : d.dLat < 0
    · rw [if_pos h5, if_pos h5]
      rw [abs_of_neg h5] at hm6
      nlinarith
    · rw [if_neg h5, if_neg h5]
      rw [abs_of_nonneg (not_lt.mp h5)] at hm6
      nlinarith
  · -- longitude coordinates strictly increase
    intro hz
    apply linspace_chain_lt
    have hdpos : 0 < dp := by
      rw [hdp]
      rcases lt_trichotomy d.dLon 0 with h | h | h
      · rw [if_pos h]
        linarith
      · exact absurd h hz
      · rw [if_neg (by linarith)]
        exact h
    have hn2 : (2 : ℚ) ≤ ((if circ then d.nLon + 1 else d.nLon : Nat) : ℚ) := by
      have h2 : 2 ≤ (if circ then d.nLon + 1 else d.nLon) := by
        by_cases hc : circ <;> simp [hc] <;> omega
      exact_mod_cast h2
    nlinarith

/-- A grid that passes validation with latitude spacing zero (`ΔLAT = 0`,
`lat0 = lat1`): allowed by the 1e-4 tolerance, yet its latitude coordinates
cannot strictly increase. -/
def zeroSpacingMsg : GridMsg where
  hasValues := true
  packingType := some packingTypeGridSimple
  gridType := some gridTypeRegularLL
  lat0 := 0
  lon0 := 0
  lat1 := 0
  lon1 := 1
  deltaLat := 0
  deltaLatPositive := true
  deltaLon := 1
  deltaLonNegative := false
  latMinorLonMajor := false
  nLat := 2
  nLon := 2

/-- C6 counterexample: `zeroSpacingMsg` has a valid grid descriptor, but
`to_numpy_array` returns the latitude coordinates `[0, 0]`, which are not
strictly increasing as the claim demands. -/
theorem toNumpyArray_strictMono_counterexample :
    getRegularGridInfo zeroSpacingMsg
      = .ok { lat0 := 0, lat1 := 0, dLat := 0, nLat := 2,
              lon0 := 0, lon1 := 1, dLon := 1, nLon := 2, latMajor := true }
    ∧ resultLatCoords (toNumpyArray zeroSpacingMsg [1, 2, 3, 4]) = some [0, 0]
    ∧ ¬ (([0, 0] : List ℚ).Chain' (· < ·)) := by
  have hdlat : signedDLat zeroSpacingMsg = 0 := by
    norm_num [signedDLat, zeroSpacingMsg]
  have hdlon : signedDLon zeroSpacingMsg = 1 := by
    norm_num [signedDLon, zeroSpacingMsg,
      abs_of_nonneg (show (0:ℚ) ≤ 1 by norm_num)]
  have hok : getRegularGridInfo zeroSpacingMsg
      = .ok { lat0 := 0, lat1 := 0, dLat := 0, nLat := 2,
              lon0 := 0, lon1 := 1, dLon := 1, nLon := 2, latMajor := true } := by
    unfold getRegularGridInfo
    rw [if_neg (not_not_intro ⟨rfl, rfl, rfl⟩)]
    dsimp only
    rw [hdlat, hdlon]
    rw [if_neg (by norm_num [zeroSpacingMsg]),
      if_neg (by norm_num [zeroSpacingMsg]),
      if_neg (not_not_intro (by norm_num [npIsClose, zeroSpacingMsg])),
      if_neg (not_not_intro (Or.inl (by norm_num [npIsClose, fmod360, zeroSpacingMsg])))]
    norm_num [zeroSpacingMsg]
  refine ⟨hok, ?_, by norm_num [List.chain'_cons]⟩
  unfold toNumpyArray
  rw [hok]
  norm_num [resultLatCoords, reshape2D, transpose2D, flipRows, flipCols, padWrapCol,
    lonCircularTest, npIsClose, fmod360, linspace, List.range_succ, List.range_zero,
    abs_of_nonneg (show (0:ℚ) ≤ 2 by norm_num),
    abs_of_nonpos (show (2:ℚ) - 360 ≤ 0 by norm_num)]

/-- A perfectly consistent unit-spaced 2×2 grid. -/
def unitGridMsg : GridMsg where
  hasValues := true
  packingType := some packingTypeGridSimple
  gridType := some gridTypeRegularLL
  lat0 := 0
  lon0 := 0
  lat1 := 1
  lon1 := 1
  deltaLat := 1
  deltaLatPositive := true
  deltaLon := 1
  deltaLonNegative := false
  latMinorLonMajor := false
  nLat := 2
  nLon := 2

/-- Witness for C6's amended theorem: on the unit grid both coordinate
sequences of `to_numpy_array` are strictly increasing. -/
theorem toNumpyArray_amended_witness :
    ((resultLatCoords (toNumpyArray unitGridMsg [1, 2, 3, 4])).getD []).Chain' (· < ·)
    ∧ ((resultLonCoords (toNumpyArray unitGridMsg [1, 2, 3, 4])).getD []).Chain' (· < ·) := by
  have habs : |(1:ℚ)| = 1 := by norm_num
  have hdlat : signedDLat unitGridMsg = 1 := by
    norm_num [signedDLat, unitGridMsg, habs]
  have hdlon : signedDLon unitGridMsg = 1 := by
    norm_num [signedDLon, unitGridMsg, habs]
  have hok : getRegularGridInfo unitGridMsg
      = .ok { lat0 := 0, lat1 := 1, dLat := 1, nLat := 2,
              lon0 := 0, lon1 := 1, dLon := 1, nLon := 2, latMajor := true } := by
    unfold getRegularGridInfo
    rw [if_neg (not_not_intro ⟨rfl, rfl, rfl⟩)]
    dsimp only
    rw [hdlat, hdlon]
    rw [if_neg (by norm_num [unitGridMsg]),
      if_neg (by norm_num [unitGridMsg]),
      if_neg (not_not_intro (by norm_num [npIsClose, unitGridMsg])),
      if_neg (not_not_intro (Or.inl (by norm_num [npIsClose, fmod360, unitGridMsg])))]
    norm_num [unitGridMsg]
  obtain ⟨data, lats, lons, heq, -, -, -, -, -, -, -, -, hlatchain, hlonchain⟩ :=
    toNumpyArray_amended unitGridMsg [1, 2, 3, 4] _ hok
  rw [heq]
  constructor
  · simpa [resultLatCoords] using hlatchain (by norm_num [habs])
  · simpa [resultLonCoords] using hlonchain (by norm_num)

end GribM
